import Mathlib

/-!
# Verification of the MoodMatch mood-mapping engine

A shallow embedding of `src/config/mood_mappings.py`: the static mood
taxonomy (`MOOD_MAPPINGS`), the similarity graph (`MOOD_SIMILARITIES`),
the opposite table (`MOOD_OPPOSITES`), the category table hard-coded in
`get_mood_category`, and the lookup/merge functions
(`get_mood_mapping`, `merge_mood_mappings`, `get_mood_category`,
`find_similar_moods`), together with a model of
`difflib.get_close_matches` as used by those functions.

Python dictionaries whose key sets vary at run time (the result of
`merge_mood_mappings`) are modelled as association lists in insertion
order; a mood's mapping dictionary, whose 15 keys are identical for
every entry of `MOOD_MAPPINGS`, is modelled as a structure.
-/

namespace MoodMatch

/-- One entry of `MOOD_MAPPINGS`: a Python dict with these 15 keys, always in
this insertion order (checked against the source for all 52 entries). -/
structure MoodProfile where
  music_genres : List String
  music_energy : String
  music_vibe : List String
  music_keywords : List String
  movie_genres : List String
  movie_tone : String
  movie_themes : List String
  movie_keywords : List String
  book_genres : List String
  book_themes : List String
  book_pacing : String
  book_depth : String
  book_keywords : List String
  avoid_themes : List String
  recommendation_strategy : String
deriving DecidableEq, Repr

/-- A Python dict value appearing in a mood mapping: a string or a list of
strings. -/
inductive PyVal where
  | s (v : String)
  | l (v : List String)
deriving DecidableEq, Repr

/-- Read a key out of a dict modelled as an association list
(`d[k]` / `k in d` are expressed through this). -/
def dget (d : List (String × PyVal)) (k : String) : Option PyVal :=
  (d.find? (fun e => e.1 == k)).map Prod.snd

/-!
## Model of `difflib` (no junk, short strings, `n = 1`)

`get_close_matches(word, possibilities, n=1, cutoff)` keeps the
possibilities `x` with `SequenceMatcher(None, x, word).ratio() >= cutoff`
and returns the largest by the pair `(ratio, x)` (via `heapq.nlargest` on
`(score, x)` tuples).  `ratio()` is `2*M/T` where `T` is the sum of both
lengths and `M` is the total size of the matching blocks found by
`get_matching_blocks`: recursively split around `find_longest_match`,
which returns the longest common contiguous run, ties resolved to the one
starting earliest in the first sequence, then earliest in the second
(its dynamic program updates the best triple only on strictly larger
sizes).  The strings here are far below difflib's autojunk threshold
(200 characters) and no junk predicate is passed, so the junk machinery
is inert and the pure description above is exact.
-/

/-- Characters of `a` at position `i` and of `b` at position `j` exist and
agree. -/
def matchAt (a b : List Char) (i j : Nat) : Bool :=
  match a.get? i, b.get? j with
  | some x, some y => x == y
  | _, _ => false

/-- Length of the longest common contiguous run of `a` and `b` ending
exactly at positions `(i, j)` (the `j2len` dynamic program of
`find_longest_match`). -/
def suffRun (a b : List Char) : Nat → Nat → Nat
  | 0, j => if matchAt a b 0 j then 1 else 0
  | i + 1, 0 => if matchAt a b (i + 1) 0 then 1 else 0
  | i + 1, j + 1 => if matchAt a b (i + 1) (j + 1) then suffRun a b i j + 1 else 0

/-- The cell scan of `find_longest_match`: visit the given `(i, j)` cells
in order, updating the best triple `(besti, bestj, bestsize)` only when a
run is strictly longer than the best so far (destructuring the
accumulator keeps the evaluation strict, as the source loop is). -/
def flmGo (a b : List Char) : List (Nat × Nat) → Nat × Nat × Nat → Nat × Nat × Nat
  | [], best => best
  | (i, j) :: cells, (bi, bj, bk) =>
    let k := suffRun a b i j
    if bk < k then flmGo a b cells (i + 1 - k, j + 1 - k, k)
    else flmGo a b cells (bi, bj, bk)

/-- `find_longest_match` over whole sequences: the triple
`(besti, bestj, bestsize)`, scanning `i` in the outer and `j` in the
inner loop, both in increasing order, starting from `(0, 0, 0)`. -/
def flm (a b : List Char) : Nat × Nat × Nat :=
  flmGo a b (((List.range a.length).map
    (fun i => (List.range b.length).map (fun j => (i, j)))).flatten) (0, 0, 0)

/-- Total size of the matching blocks (`get_matching_blocks`), by the
recursive split around the longest match.  `fuel` bounds the recursion
depth; each recursive call strictly shortens the first sequence, so
`a.length + 1` is always enough (see `mtotal`). -/
def mblocksAux : Nat → List Char → List Char → Nat
  | 0, _, _ => 0
  | fuel + 1, a, b =>
    let t := flm a b
    if t.2.2 = 0 then 0
    else
      mblocksAux fuel (a.take t.1) (b.take t.2.1) + t.2.2 +
        mblocksAux fuel (a.drop (t.1 + t.2.2)) (b.drop (t.2.1 + t.2.2))

/-- `M`: the total number of matched characters between `a` and `b`. -/
def mtotal (a b : List Char) : Nat := mblocksAux (a.length + 1) a b

/-- `SequenceMatcher(None, a, b).ratio() >= num/den`, as exact arithmetic:
`ratio()` is the float `2*M/T` (and `1.0` when `T = 0`), compared against
the float literals `0.6` / `0.7` / `0.8`.  The exact comparison is
faithful to the float one: the float cutoffs differ from the rationals
`3/5`, `7/10`, `4/5` by less than `5e-17`, while `2*M/T` for the string
lengths at hand (`T ≤ 40`) is a rational with denominator at most `40`,
so it is either equal to the cutoff (then its float image, the nearest
double, compares the same way) or at least `1/200` away from it, far
beyond the float rounding error of the division. -/
def ratioGe (a b : List Char) (num den : Nat) : Bool :=
  let t := a.length + b.length
  if t = 0 then decide (den ≤ num) else decide (num * t ≤ den * (2 * mtotal a b))

/-- `heapq.nlargest(1, …)` tie-breaking: candidate `x` displaces the
current best iff its `(ratio, x)` tuple is strictly larger; equal float
ratios compare the strings (Python compares by code points, as Lean's
`String` order does).  Distinct ratios `2*M/T` at the lengths at hand are
at least `1/1600` apart, so equality of the floats coincides with
equality of the exact rationals. -/
def betterCand (word : List Char) (best x : String) : Bool :=
  let mb := 2 * mtotal best.toList word
  let tb := best.length + word.length
  let mx := 2 * mtotal x.toList word
  let tx := x.length + word.length
  if mx * tb > mb * tx then true
  else if mx * tb = mb * tx then best < x
  else false

/-- `difflib.get_close_matches(word, possibilities, n=1, cutoff=num/den)`,
returning the single best match if any possibility clears the cutoff. -/
def getCloseMatch1 (word : List Char) (poss : List String) (num den : Nat) :
    Option String :=
  match poss.filter (fun x => ratioGe x.toList word num den) with
  | [] => none
  | c :: cs =>
    some (cs.foldl (fun best x => if betterCand word best x then x else best) c)

/-- The whitespace characters stripped by `str.strip()` (ASCII): space,
tab, newline, carriage return, vertical tab, form feed. -/
def pyWhitespace (c : Char) : Bool :=
  c == ' ' || c == '\t' || c == '\n' || c == '\r' ||
    c == Char.ofNat 11 || c == Char.ofNat 12

/-- `mood.lower().strip()`.  `str.lower` is modelled on ASCII letters
(every label in the taxonomy and in the claims is ASCII). -/
def pyNormalize (s : String) : String :=
  ⟨(((s.toList.map Char.toLower).dropWhile pyWhitespace).reverse.dropWhile
      pyWhitespace).reverse⟩

def MOOD_MAPPINGS : List (String × MoodProfile) := [
  ("happy", {
    music_genres := ["upbeat pop", "indie pop", "dance", "feel good", "sunshine"],
    music_energy := "high",
    music_vibe := ["uplifting", "cheerful", "energizing", "joyful"],
    music_keywords := ["happy", "feel good", "positive vibes", "good mood"],
    movie_genres := ["Comedy", "Romance", "Animation", "Musical"],
    movie_tone := "light",
    movie_themes := ["friendship", "love", "triumph", "joy"],
    movie_keywords := ["feel-good", "heartwarming", "uplifting", "fun"],
    book_genres := ["Fiction", "Romance", "Humor", "Young Adult"],
    book_themes := ["happiness", "love", "friendship", "success"],
    book_pacing := "moderate",
    book_depth := "light",
    book_keywords := ["uplifting", "heartwarming", "feel-good", "joyful"],
    avoid_themes := ["tragedy", "dark", "depressing"],
    recommendation_strategy := "match" }),
  ("excited", {
    music_genres := ["upbeat pop", "dance", "electronic", "rock", "party"],
    music_energy := "very_high",
    music_vibe := ["energizing", "celebratory", "powerful", "fun"],
    music_keywords := ["party", "pump up", "celebration", "high energy"],
    movie_genres := ["Action", "Adventure", "Comedy", "Animation"],
    movie_tone := "uplifting",
    movie_themes := ["triumph", "adventure", "success", "excitement"],
    movie_keywords := ["thrilling", "exciting", "entertaining", "inspiring"],
    book_genres := ["Adventure", "Thriller", "Biography", "Self-Help"],
    book_themes := ["achievement", "journey", "success", "ambition"],
    book_pacing := "fast",
    book_depth := "light",
    book_keywords := ["motivating", "success stories", "adventure", "exciting"],
    avoid_themes := ["sad", "slow", "depressing", "boring"],
    recommendation_strategy := "match" }),
  ("grateful", {
    music_genres := ["acoustic", "folk", "indie", "soul", "gospel"],
    music_energy := "medium",
    music_vibe := ["warm", "heartfelt", "uplifting", "peaceful"],
    music_keywords := ["grateful", "thankful", "blessings", "appreciation"],
    movie_genres := ["Drama", "Biography", "Documentary", "Family"],
    movie_tone := "uplifting",
    movie_themes := ["kindness", "family", "community", "appreciation"],
    movie_keywords := ["heartwarming", "inspiring", "meaningful", "touching"],
    book_genres := ["Memoir", "Self-Help", "Philosophy", "Biography"],
    book_themes := ["gratitude", "appreciation", "kindness", "perspective"],
    book_pacing := "contemplative",
    book_depth := "medium",
    book_keywords := ["gratitude", "thankfulness", "appreciation", "mindfulness"],
    avoid_themes := ["cynical", "negative", "ungrateful"],
    recommendation_strategy := "match" }),
  ("peaceful", {
    music_genres := ["ambient", "classical", "acoustic", "nature sounds", "meditation"],
    music_energy := "low",
    music_vibe := ["calming", "serene", "gentle", "tranquil"],
    music_keywords := ["peaceful", "calm", "relaxing", "meditation"],
    movie_genres := ["Documentary", "Drama", "Animation", "Romance"],
    movie_tone := "balanced",
    movie_themes := ["nature", "harmony", "simplicity", "tranquility"],
    movie_keywords := ["peaceful", "serene", "contemplative", "gentle"],
    book_genres := ["Poetry", "Philosophy", "Nature", "Fiction"],
    book_themes := ["peace", "mindfulness", "nature", "harmony"],
    book_pacing := "slow",
    book_depth := "medium",
    book_keywords := ["peaceful", "calm", "serene", "mindfulness"],
    avoid_themes := ["violent", "chaotic", "intense", "stressful"],
    recommendation_strategy := "match" }),
  ("confident", {
    music_genres := ["hip hop", "rock", "electronic", "pop", "power"],
    music_energy := "high",
    music_vibe := ["powerful", "empowering", "bold", "strong"],
    music_keywords := ["confidence", "powerful", "boss", "unstoppable"],
    movie_genres := ["Action", "Biography", "Drama", "Sport"],
    movie_tone := "uplifting",
    movie_themes := ["empowerment", "success", "overcoming", "strength"],
    movie_keywords := ["empowering", "inspiring", "triumphant", "bold"],
    book_genres := ["Self-Help", "Biography", "Business", "Psychology"],
    book_themes := ["confidence", "empowerment", "success", "leadership"],
    book_pacing := "moderate",
    book_depth := "medium",
    book_keywords := ["confidence", "empowerment", "success", "strength"],
    avoid_themes := ["defeat", "weakness", "failure"],
    recommendation_strategy := "match" }),
  ("inspired", {
    music_genres := ["classical", "epic", "orchestral", "indie folk", "cinematic"],
    music_energy := "medium",
    music_vibe := ["inspiring", "uplifting", "powerful", "creative"],
    music_keywords := ["inspiring", "motivational", "creative", "epic"],
    movie_genres := ["Biography", "Drama", "Documentary", "Adventure"],
    movie_tone := "uplifting",
    movie_themes := ["achievement", "creativity", "innovation", "transformation"],
    movie_keywords := ["inspiring", "motivational", "transformative", "powerful"],
    book_genres := ["Biography", "Self-Help", "Philosophy", "History"],
    book_themes := ["inspiration", "creativity", "innovation", "achievement"],
    book_pacing := "moderate",
    book_depth := "deep",
    book_keywords := ["inspiring", "motivational", "creative", "wisdom"],
    avoid_themes := ["pessimistic", "defeat", "cynical"],
    recommendation_strategy := "match" }),
  ("playful", {
    music_genres := ["indie pop", "funk", "dance", "quirky", "upbeat"],
    music_energy := "high",
    music_vibe := ["fun", "lighthearted", "cheerful", "carefree"],
    music_keywords := ["fun", "playful", "quirky", "lighthearted"],
    movie_genres := ["Comedy", "Animation", "Adventure", "Family"],
    movie_tone := "light",
    movie_themes := ["fun", "adventure", "humor", "whimsy"],
    movie_keywords := ["funny", "lighthearted", "entertaining", "playful"],
    book_genres := ["Humor", "Fiction", "Young Adult", "Graphic Novels"],
    book_themes := ["fun", "adventure", "humor", "whimsy"],
    book_pacing := "fast",
    book_depth := "light",
    book_keywords := ["funny", "lighthearted", "entertaining", "fun"],
    avoid_themes := ["serious", "heavy", "dark"],
    recommendation_strategy := "match" }),
  ("content", {
    music_genres := ["acoustic", "indie folk", "chill", "soft rock", "jazz"],
    music_energy := "medium",
    music_vibe := ["comfortable", "warm", "relaxed", "satisfied"],
    music_keywords := ["content", "relaxed", "comfortable", "chill"],
    movie_genres := ["Drama", "Romance", "Comedy", "Documentary"],
    movie_tone := "balanced",
    movie_themes := ["satisfaction", "comfort", "simplicity", "harmony"],
    movie_keywords := ["comfortable", "satisfying", "pleasant", "easy"],
    book_genres := ["Fiction", "Memoir", "Poetry", "Essays"],
    book_themes := ["contentment", "simplicity", "appreciation", "peace"],
    book_pacing := "slow",
    book_depth := "medium",
    book_keywords := ["comfortable", "satisfying", "peaceful", "reflective"],
    avoid_themes := ["chaotic", "intense", "disturbing"],
    recommendation_strategy := "match" }),
  ("loving", {
    music_genres := ["r&b", "soul", "romantic", "acoustic", "indie"],
    music_energy := "low",
    music_vibe := ["romantic", "warm", "tender", "affectionate"],
    music_keywords := ["love", "romantic", "intimate", "tender"],
    movie_genres := ["Romance", "Drama", "Comedy"],
    movie_tone := "light",
    movie_themes := ["love", "romance", "connection", "intimacy"],
    movie_keywords := ["romantic", "heartwarming", "sweet", "touching"],
    book_genres := ["Romance", "Fiction", "Poetry", "Memoir"],
    book_themes := ["love", "romance", "connection", "passion"],
    book_pacing := "moderate",
    book_depth := "medium",
    book_keywords := ["romantic", "love", "heartwarming", "tender"],
    avoid_themes := ["heartbreak", "betrayal", "cynical"],
    recommendation_strategy := "match" }),
  ("proud", {
    music_genres := ["orchestral", "rock", "hip hop", "epic", "triumphant"],
    music_energy := "high",
    music_vibe := ["triumphant", "powerful", "celebratory", "victorious"],
    music_keywords := ["triumph", "victory", "success", "achievement"],
    movie_genres := ["Biography", "Sport", "Drama", "Documentary"],
    movie_tone := "uplifting",
    movie_themes := ["achievement", "success", "overcoming", "triumph"],
    movie_keywords := ["inspiring", "triumphant", "victorious", "powerful"],
    book_genres := ["Biography", "Self-Help", "History", "Business"],
    book_themes := ["achievement", "success", "pride", "accomplishment"],
    book_pacing := "moderate",
    book_depth := "medium",
    book_keywords := ["success", "achievement", "inspiring", "triumphant"],
    avoid_themes := ["failure", "defeat", "humiliation"],
    recommendation_strategy := "match" }),
  ("sad", {
    music_genres := ["sad", "acoustic", "indie folk", "piano", "melancholic"],
    music_energy := "low",
    music_vibe := ["melancholic", "emotional", "somber", "heartfelt"],
    music_keywords := ["sad", "crying", "emotional", "heartbreak"],
    movie_genres := ["Drama", "Romance", "Animation"],
    movie_tone := "serious",
    movie_themes := ["loss", "grief", "healing", "catharsis"],
    movie_keywords := ["emotional", "moving", "cathartic", "poignant"],
    book_genres := ["Fiction", "Literary Fiction", "Poetry", "Memoir"],
    book_themes := ["sadness", "loss", "healing", "human condition"],
    book_pacing := "slow",
    book_depth := "deep",
    book_keywords := ["emotional", "moving", "cathartic", "healing"],
    avoid_themes := ["superficial", "overly cheerful"],
    recommendation_strategy := "process" }),
  ("anxious", {
    music_genres := ["ambient", "lo-fi", "classical", "meditation", "calm"],
    music_energy := "very_low",
    music_vibe := ["calming", "soothing", "peaceful", "gentle"],
    music_keywords := ["anxiety relief", "calming", "meditation", "peaceful"],
    movie_genres := ["Animation", "Comedy", "Documentary", "Family"],
    movie_tone := "light",
    movie_themes := ["comfort", "safety", "reassurance", "peace"],
    movie_keywords := ["comforting", "gentle", "safe", "predictable"],
    book_genres := ["Self-Help", "Fiction", "Poetry", "Meditation"],
    book_themes := ["anxiety", "mindfulness", "peace", "grounding"],
    book_pacing := "slow",
    book_depth := "medium",
    book_keywords := ["anxiety", "calm", "mindfulness", "peace"],
    avoid_themes := ["thriller", "suspense", "horror", "chaos"],
    recommendation_strategy := "uplift" }),
  ("stressed", {
    music_genres := ["ambient", "lo-fi", "acoustic", "classical", "chill"],
    music_energy := "low",
    music_vibe := ["calming", "peaceful", "soothing", "gentle"],
    music_keywords := ["stress relief", "deep focus", "calm", "meditation"],
    movie_genres := ["Comedy", "Animation", "Drama"],
    movie_tone := "light",
    movie_themes := ["feel-good", "comfort", "low-stakes", "uplifting"],
    movie_keywords := ["relaxing", "heartwarming", "gentle"],
    book_genres := ["Self-Help", "Fiction", "Poetry"],
    book_themes := ["mindfulness", "rest", "simplicity", "balance"],
    book_pacing := "contemplative",
    book_depth := "medium",
    book_keywords := ["stress management", "calm", "peace"],
    avoid_themes := ["intense", "dark", "complex plots"],
    recommendation_strategy := "uplift" }),
  ("angry", {
    music_genres := ["rock", "metal", "punk", "aggressive", "intense"],
    music_energy := "very_high",
    music_vibe := ["powerful", "intense", "cathartic", "aggressive"],
    music_keywords := ["anger", "intense", "power", "release"],
    movie_genres := ["Action", "Thriller", "Drama"],
    movie_tone := "intense",
    movie_themes := ["justice", "revenge", "overcoming", "empowerment"],
    movie_keywords := ["intense", "powerful", "cathartic", "justice"],
    book_genres := ["Thriller", "Fiction", "Biography", "Self-Help"],
    book_themes := ["justice", "anger management", "empowerment", "transformation"],
    book_pacing := "fast",
    book_depth := "medium",
    book_keywords := ["anger", "justice", "empowerment", "cathartic"],
    avoid_themes := ["passive", "weak", "submissive"],
    recommendation_strategy := "channel" }),
  ("lonely", {
    music_genres := ["indie", "acoustic", "singer-songwriter", "sad", "soul"],
    music_energy := "low",
    music_vibe := ["melancholic", "intimate", "emotional", "reflective"],
    music_keywords := ["lonely", "alone", "solitude", "connection"],
    movie_genres := ["Drama", "Romance", "Comedy", "Animation"],
    movie_tone := "balanced",
    movie_themes := ["connection", "friendship", "belonging", "community"],
    movie_keywords := ["connection", "friendship", "warmth", "belonging"],
    book_genres := ["Fiction", "Romance", "Memoir", "Self-Help"],
    book_themes := ["loneliness", "connection", "belonging", "friendship"],
    book_pacing := "moderate",
    book_depth := "medium",
    book_keywords := ["loneliness", "connection", "friendship", "belonging"],
    avoid_themes := ["isolation", "abandonment", "despair"],
    recommendation_strategy := "process" }),
  ("heartbroken", {
    music_genres := ["sad", "breakup", "emotional", "soul", "r&b"],
    music_energy := "low",
    music_vibe := ["heartfelt", "emotional", "cathartic", "healing"],
    music_keywords := ["heartbreak", "breakup", "sad love", "healing"],
    movie_genres := ["Romance", "Drama", "Comedy"],
    movie_tone := "balanced",
    movie_themes := ["heartbreak", "healing", "self-discovery", "growth"],
    movie_keywords := ["emotional", "cathartic", "healing", "moving on"],
    book_genres := ["Romance", "Fiction", "Self-Help", "Poetry"],
    book_themes := ["heartbreak", "healing", "recovery", "resilience"],
    book_pacing := "moderate",
    book_depth := "medium",
    book_keywords := ["heartbreak", "healing", "moving on", "recovery"],
    avoid_themes := ["toxic relationships", "betrayal", "cynical"],
    recommendation_strategy := "process" }),
  ("disappointed", {
    music_genres := ["indie", "acoustic", "melancholic", "soft rock", "alternative"],
    music_energy := "low",
    music_vibe := ["reflective", "somber", "hopeful", "gentle"],
    music_keywords := ["disappointed", "let down", "reflective", "hopeful"],
    movie_genres := ["Drama", "Biography", "Comedy"],
    movie_tone := "balanced",
    movie_themes := ["resilience", "overcoming", "hope", "growth"],
    movie_keywords := ["inspiring", "hopeful", "uplifting", "resilient"],
    book_genres := ["Self-Help", "Biography", "Fiction", "Philosophy"],
    book_themes := ["disappointment", "resilience", "perspective", "growth"],
    book_pacing := "moderate",
    book_depth := "medium",
    book_keywords := ["resilience", "overcoming", "hope", "perspective"],
    avoid_themes := ["failure", "giving up", "pessimistic"],
    recommendation_strategy := "uplift" }),
  ("guilty", {
    music_genres := ["acoustic", "indie folk", "melancholic", "soft", "reflective"],
    music_energy := "low",
    music_vibe := ["reflective", "somber", "contemplative", "gentle"],
    music_keywords := ["regret", "reflection", "forgiveness", "healing"],
    movie_genres := ["Drama", "Biography"],
    movie_tone := "serious",
    movie_themes := ["redemption", "forgiveness", "growth", "learning"],
    movie_keywords := ["redemptive", "thoughtful", "meaningful", "forgiving"],
    book_genres := ["Fiction", "Philosophy", "Self-Help", "Memoir"],
    book_themes := ["guilt", "redemption", "forgiveness", "growth"],
    book_pacing := "slow",
    book_depth := "deep",
    book_keywords := ["guilt", "redemption", "forgiveness", "self-compassion"],
    avoid_themes := ["judgmental", "harsh", "unforgiving"],
    recommendation_strategy := "process" }),
  ("jealous", {
    music_genres := ["r&b", "soul", "alternative", "emotional", "intense"],
    music_energy := "medium",
    music_vibe := ["intense", "emotional", "powerful", "raw"],
    music_keywords := ["jealousy", "emotional", "intense", "raw"],
    movie_genres := ["Drama", "Thriller", "Romance"],
    movie_tone := "dark",
    movie_themes := ["self-worth", "confidence", "overcoming", "growth"],
    movie_keywords := ["intense", "emotional", "transformative", "powerful"],
    book_genres := ["Psychology", "Self-Help", "Fiction", "Memoir"],
    book_themes := ["jealousy", "self-worth", "confidence", "security"],
    book_pacing := "moderate",
    book_depth := "deep",
    book_keywords := ["jealousy", "self-worth", "confidence", "security"],
    avoid_themes := ["comparison", "inadequacy"],
    recommendation_strategy := "process" }),
  ("embarrassed", {
    music_genres := ["chill", "lo-fi", "indie", "soft", "comforting"],
    music_energy := "low",
    music_vibe := ["comforting", "gentle", "reassuring", "calm"],
    music_keywords := ["comfort", "reassuring", "gentle", "calm"],
    movie_genres := ["Comedy", "Drama", "Animation"],
    movie_tone := "light",
    movie_themes := ["acceptance", "humor", "resilience", "growth"],
    movie_keywords := ["relatable", "comforting", "lighthearted", "accepting"],
    book_genres := ["Humor", "Self-Help", "Memoir", "Fiction"],
    book_themes := ["embarrassment", "acceptance", "humor", "resilience"],
    book_pacing := "moderate",
    book_depth := "light",
    book_keywords := ["embarrassment", "acceptance", "humor", "relatable"],
    avoid_themes := ["humiliation", "shame", "judgment"],
    recommendation_strategy := "uplift" }),
  ("afraid", {
    music_genres := ["ambient", "calming", "soft", "meditation", "peaceful"],
    music_energy := "very_low",
    music_vibe := ["soothing", "safe", "calming", "reassuring"],
    music_keywords := ["calm", "safe", "peaceful", "reassuring"],
    movie_genres := ["Animation", "Comedy", "Family", "Documentary"],
    movie_tone := "light",
    movie_themes := ["safety", "courage", "overcoming", "hope"],
    movie_keywords := ["comforting", "reassuring", "hopeful", "safe"],
    book_genres := ["Self-Help", "Fiction", "Biography", "Philosophy"],
    book_themes := ["courage", "fear", "resilience", "safety"],
    book_pacing := "slow",
    book_depth := "medium",
    book_keywords := ["courage", "fear", "overcoming", "resilience"],
    avoid_themes := ["horror", "thriller", "scary", "dangerous"],
    recommendation_strategy := "uplift" }),
  ("hopeless", {
    music_genres := ["ambient", "classical", "soft", "hopeful", "uplifting"],
    music_energy := "low",
    music_vibe := ["gentle", "hopeful", "uplifting", "comforting"],
    music_keywords := ["hope", "uplifting", "healing", "gentle"],
    movie_genres := ["Drama", "Biography", "Documentary"],
    movie_tone := "uplifting",
    movie_themes := ["hope", "resilience", "overcoming", "triumph"],
    movie_keywords := ["inspiring", "hopeful", "uplifting", "resilient"],
    book_genres := ["Biography", "Self-Help", "Philosophy", "Fiction"],
    book_themes := ["hope", "resilience", "meaning", "recovery"],
    book_pacing := "moderate",
    book_depth := "deep",
    book_keywords := ["hope", "resilience", "inspiring", "meaning"],
    avoid_themes := ["despair", "defeat", "dark", "pessimistic"],
    recommendation_strategy := "uplift" }),
  ("energetic", {
    music_genres := ["electronic", "rock", "hip hop", "workout", "dance"],
    music_energy := "very_high",
    music_vibe := ["energizing", "powerful", "intense", "motivating"],
    music_keywords := ["workout", "pump up", "energy", "motivation"],
    movie_genres := ["Action", "Adventure", "Thriller", "Sport"],
    movie_tone := "intense",
    movie_themes := ["action", "adventure", "competition", "excitement"],
    movie_keywords := ["action-packed", "thrilling", "fast-paced", "exciting"],
    book_genres := ["Thriller", "Action", "Adventure", "Science Fiction"],
    book_themes := ["action", "adventure", "intensity", "challenge"],
    book_pacing := "fast",
    book_depth := "light",
    book_keywords := ["fast-paced", "action", "thriller", "exciting"],
    avoid_themes := ["slow", "melancholy", "passive"],
    recommendation_strategy := "match" }),
  ("tired", {
    music_genres := ["ambient", "lo-fi", "chill", "soft", "calm"],
    music_energy := "very_low",
    music_vibe := ["relaxing", "gentle", "soothing", "peaceful"],
    music_keywords := ["sleep", "rest", "relaxing", "gentle"],
    movie_genres := ["Animation", "Comedy", "Documentary", "Family"],
    movie_tone := "light",
    movie_themes := ["comfort", "simplicity", "ease", "gentle"],
    movie_keywords := ["easy", "relaxing", "comforting", "light"],
    book_genres := ["Fiction", "Poetry", "Humor", "Short Stories"],
    book_themes := ["rest", "comfort", "simplicity", "ease"],
    book_pacing := "slow",
    book_depth := "light",
    book_keywords := ["easy read", "light", "comforting", "short"],
    avoid_themes := ["intense", "demanding", "complex", "stressful"],
    recommendation_strategy := "match" }),
  ("restless", {
    music_genres := ["alternative", "indie rock", "electronic", "experimental", "dynamic"],
    music_energy := "high",
    music_vibe := ["dynamic", "interesting", "varied", "stimulating"],
    music_keywords := ["dynamic", "varied", "interesting", "engaging"],
    movie_genres := ["Thriller", "Mystery", "Science Fiction", "Adventure"],
    movie_tone := "balanced",
    movie_themes := ["mystery", "exploration", "intrigue", "discovery"],
    movie_keywords := ["engaging", "intriguing", "captivating", "mysterious"],
    book_genres := ["Mystery", "Thriller", "Science Fiction", "Adventure"],
    book_themes := ["mystery", "exploration", "discovery", "intrigue"],
    book_pacing := "fast",
    book_depth := "medium",
    book_keywords := ["page-turner", "engaging", "intriguing", "captivating"],
    avoid_themes := ["boring", "predictable", "slow", "mundane"],
    recommendation_strategy := "channel" }),
  ("sluggish", {
    music_genres := ["chill", "lo-fi", "soft rock", "acoustic", "ambient"],
    music_energy := "low",
    music_vibe := ["gentle", "uplifting", "easy", "comforting"],
    music_keywords := ["easy", "gentle", "uplifting", "comfortable"],
    movie_genres := ["Comedy", "Animation", "Romance", "Documentary"],
    movie_tone := "light",
    movie_themes := ["motivation", "gentle energy", "uplifting", "comfort"],
    movie_keywords := ["light", "uplifting", "easy", "motivating"],
    book_genres := ["Fiction", "Self-Help", "Humor", "Graphic Novels"],
    book_themes := ["motivation", "energy", "simplicity", "inspiration"],
    book_pacing := "moderate",
    book_depth := "light",
    book_keywords := ["motivating", "easy", "uplifting", "energizing"],
    avoid_themes := ["heavy", "demanding", "dark"],
    recommendation_strategy := "uplift" }),
  ("hyper", {
    music_genres := ["electronic", "dance", "fast", "intense", "high-energy"],
    music_energy := "very_high",
    music_vibe := ["intense", "fast", "energetic", "powerful"],
    music_keywords := ["high energy", "intense", "fast", "powerful"],
    movie_genres := ["Action", "Thriller", "Adventure", "Comedy"],
    movie_tone := "intense",
    movie_themes := ["action", "excitement", "adventure", "energy"],
    movie_keywords := ["fast-paced", "intense", "action-packed", "exciting"],
    book_genres := ["Thriller", "Action", "Science Fiction", "Adventure"],
    book_themes := ["action", "intensity", "excitement", "speed"],
    book_pacing := "fast",
    book_depth := "light",
    book_keywords := ["fast-paced", "action", "intense", "exciting"],
    avoid_themes := ["slow", "calm", "boring"],
    recommendation_strategy := "channel" }),
  ("burnt_out", {
    music_genres := ["ambient", "meditation", "nature sounds", "soft", "healing"],
    music_energy := "very_low",
    music_vibe := ["healing", "restorative", "gentle", "peaceful"],
    music_keywords := ["recovery", "healing", "rest", "restoration"],
    movie_genres := ["Documentary", "Animation", "Comedy", "Nature"],
    movie_tone := "light",
    movie_themes := ["recovery", "rest", "simplicity", "peace"],
    movie_keywords := ["restorative", "gentle", "peaceful", "healing"],
    book_genres := ["Self-Help", "Memoir", "Poetry", "Philosophy"],
    book_themes := ["burnout", "recovery", "balance", "self-care"],
    book_pacing := "slow",
    book_depth := "medium",
    book_keywords := ["burnout", "recovery", "self-care", "healing"],
    avoid_themes := ["demanding", "stressful", "intense", "work"],
    recommendation_strategy := "uplift" }),
  ("mellow", {
    music_genres := ["jazz", "chill", "acoustic", "soft rock", "indie"],
    music_energy := "low",
    music_vibe := ["relaxed", "smooth", "easy", "comfortable"],
    music_keywords := ["mellow", "chill", "relaxed", "smooth"],
    movie_genres := ["Drama", "Romance", "Comedy", "Documentary"],
    movie_tone := "balanced",
    movie_themes := ["ease", "comfort", "simplicity", "contentment"],
    movie_keywords := ["relaxed", "easy", "smooth", "comfortable"],
    book_genres := ["Fiction", "Poetry", "Essays", "Memoir"],
    book_themes := ["ease", "reflection", "simplicity", "contentment"],
    book_pacing := "slow",
    book_depth := "medium",
    book_keywords := ["relaxed", "easy", "reflective", "comfortable"],
    avoid_themes := ["intense", "chaotic", "demanding"],
    recommendation_strategy := "match" }),
  ("drowsy", {
    music_genres := ["ambient", "sleep", "soft", "meditation", "calm"],
    music_energy := "very_low",
    music_vibe := ["soothing", "gentle", "peaceful", "sleepy"],
    music_keywords := ["sleep", "bedtime", "lullaby", "gentle"],
    movie_genres := ["Animation", "Documentary", "Nature"],
    movie_tone := "light",
    movie_themes := ["peaceful", "gentle", "calming", "simple"],
    movie_keywords := ["gentle", "soothing", "peaceful", "quiet"],
    book_genres := ["Poetry", "Short Stories", "Fiction", "Essays"],
    book_themes := ["peace", "rest", "dreams", "comfort"],
    book_pacing := "very slow",
    book_depth := "light",
    book_keywords := ["bedtime", "gentle", "peaceful", "short"],
    avoid_themes := ["exciting", "intense", "scary", "stimulating"],
    recommendation_strategy := "match" }),
  ("social", {
    music_genres := ["pop", "dance", "party", "funk", "upbeat"],
    music_energy := "high",
    music_vibe := ["fun", "celebratory", "energetic", "social"],
    music_keywords := ["party", "friends", "celebration", "social"],
    movie_genres := ["Comedy", "Romance", "Drama", "Musical"],
    movie_tone := "light",
    movie_themes := ["friendship", "community", "connection", "fun"],
    movie_keywords := ["fun", "social", "ensemble", "friendship"],
    book_genres := ["Fiction", "Contemporary", "Humor", "Romance"],
    book_themes := ["friendship", "social", "community", "connection"],
    book_pacing := "moderate",
    book_depth := "light",
    book_keywords := ["friendship", "social", "relationships", "community"],
    avoid_themes := ["isolation", "antisocial", "lonely"],
    recommendation_strategy := "match" }),
  ("introverted", {
    music_genres := ["indie", "acoustic", "lo-fi", "ambient", "soft"],
    music_energy := "low",
    music_vibe := ["peaceful", "introspective", "gentle", "calm"],
    music_keywords := ["alone time", "peaceful", "solitude", "quiet"],
    movie_genres := ["Drama", "Documentary", "Animation", "Art House"],
    movie_tone := "balanced",
    movie_themes := ["solitude", "reflection", "peace", "individual"],
    movie_keywords := ["quiet", "reflective", "contemplative", "peaceful"],
    book_genres := ["Fiction", "Philosophy", "Poetry", "Memoir"],
    book_themes := ["solitude", "reflection", "introspection", "peace"],
    book_pacing := "slow",
    book_depth := "deep",
    book_keywords := ["introspective", "quiet", "reflective", "solitude"],
    avoid_themes := ["loud", "social pressure", "chaotic"],
    recommendation_strategy := "match" }),
  ("romantic", {
    music_genres := ["r&b", "soul", "love songs", "jazz", "acoustic"],
    music_energy := "low",
    music_vibe := ["romantic", "intimate", "tender", "warm"],
    music_keywords := ["love", "romantic", "intimate", "passion"],
    movie_genres := ["Romance", "Drama", "Comedy"],
    movie_tone := "light",
    movie_themes := ["love", "romance", "passion", "connection"],
    movie_keywords := ["romantic", "heartwarming", "sweet", "loving"],
    book_genres := ["Romance", "Fiction", "Poetry"],
    book_themes := ["love", "romance", "passion", "intimacy"],
    book_pacing := "moderate",
    book_depth := "medium",
    book_keywords := ["romantic", "love", "passion", "heartwarming"],
    avoid_themes := ["heartbreak", "cynical", "bitter"],
    recommendation_strategy := "match" }),
  ("nostalgic", {
    music_genres := ["classic rock", "oldies", "80s", "90s", "retro"],
    music_energy := "medium",
    music_vibe := ["nostalgic", "bittersweet", "reflective", "warm"],
    music_keywords := ["throwback", "memories", "nostalgia", "classic"],
    movie_genres := ["Drama", "Comedy", "Family", "Animation"],
    movie_tone := "balanced",
    movie_themes := ["memory", "past", "childhood", "coming of age"],
    movie_keywords := ["nostalgic", "sentimental", "memories", "classic"],
    book_genres := ["Memoir", "Historical Fiction", "Fiction", "Classic"],
    book_themes := ["memory", "past", "nostalgia", "time"],
    book_pacing := "moderate",
    book_depth := "medium",
    book_keywords := ["nostalgic", "memories", "past", "reflective"],
    avoid_themes := ["futuristic", "modern", "cutting-edge"],
    recommendation_strategy := "match" }),
  ("homesick", {
    music_genres := ["folk", "acoustic", "country", "soft", "comforting"],
    music_energy := "low",
    music_vibe := ["comforting", "warm", "familiar", "gentle"],
    music_keywords := ["home", "comfort", "family", "familiar"],
    movie_genres := ["Family", "Drama", "Animation", "Comedy"],
    movie_tone := "light",
    movie_themes := ["family", "home", "belonging", "comfort"],
    movie_keywords := ["heartwarming", "family", "comforting", "home"],
    book_genres := ["Fiction", "Memoir", "Family", "Contemporary"],
    book_themes := ["home", "family", "belonging", "roots"],
    book_pacing := "moderate",
    book_depth := "medium",
    book_keywords := ["family", "home", "belonging", "comfort"],
    avoid_themes := ["displacement", "loss", "abandonment"],
    recommendation_strategy := "process" }),
  ("misunderstood", {
    music_genres := ["alternative", "indie", "emo", "rock", "emotional"],
    music_energy := "medium",
    music_vibe := ["emotional", "raw", "authentic", "expressive"],
    music_keywords := ["misunderstood", "emotional", "authentic", "raw"],
    movie_genres := ["Drama", "Biography", "Coming-of-Age"],
    movie_tone := "serious",
    movie_themes := ["understanding", "acceptance", "identity", "expression"],
    movie_keywords := ["relatable", "authentic", "emotional", "validating"],
    book_genres := ["Fiction", "Young Adult", "Memoir", "Psychology"],
    book_themes := ["understanding", "identity", "acceptance", "expression"],
    book_pacing := "moderate",
    book_depth := "medium",
    book_keywords := ["relatable", "understanding", "identity", "validation"],
    avoid_themes := ["judgmental", "dismissive", "superficial"],
    recommendation_strategy := "process" }),
  ("betrayed", {
    music_genres := ["emotional", "alternative", "rock", "raw", "powerful"],
    music_energy := "medium",
    music_vibe := ["intense", "emotional", "cathartic", "powerful"],
    music_keywords := ["betrayal", "hurt", "anger", "healing"],
    movie_genres := ["Drama", "Thriller"],
    movie_tone := "dark",
    movie_themes := ["betrayal", "recovery", "strength", "justice"],
    movie_keywords := ["intense", "emotional", "cathartic", "powerful"],
    book_genres := ["Fiction", "Thriller", "Psychology", "Self-Help"],
    book_themes := ["betrayal", "trust", "healing", "recovery"],
    book_pacing := "moderate",
    book_depth := "deep",
    book_keywords := ["betrayal", "healing", "recovery", "trust"],
    avoid_themes := ["trust issues", "paranoia"],
    recommendation_strategy := "process" }),
  ("supported", {
    music_genres := ["uplifting", "soul", "gospel", "indie", "warm"],
    music_energy := "medium",
    music_vibe := ["warm", "uplifting", "comforting", "grateful"],
    music_keywords := ["support", "gratitude", "love", "comfort"],
    movie_genres := ["Drama", "Family", "Biography", "Comedy"],
    movie_tone := "uplifting",
    movie_themes := ["support", "community", "love", "gratitude"],
    movie_keywords := ["heartwarming", "uplifting", "supportive", "comforting"],
    book_genres := ["Memoir", "Fiction", "Self-Help", "Biography"],
    book_themes := ["support", "community", "gratitude", "connection"],
    book_pacing := "moderate",
    book_depth := "medium",
    book_keywords := ["support", "community", "gratitude", "uplifting"],
    avoid_themes := ["betrayal", "isolation", "abandonment"],
    recommendation_strategy := "match" }),
  ("contemplative", {
    music_genres := ["ambient", "classical", "jazz", "instrumental", "meditative"],
    music_energy := "low",
    music_vibe := ["thoughtful", "deep", "peaceful", "reflective"],
    music_keywords := ["contemplation", "reflection", "thought", "meditation"],
    movie_genres := ["Drama", "Documentary", "Art House", "Foreign"],
    movie_tone := "serious",
    movie_themes := ["reflection", "meaning", "depth", "contemplation"],
    movie_keywords := ["thought-provoking", "deep", "contemplative", "meaningful"],
    book_genres := ["Philosophy", "Literary Fiction", "Poetry", "Essays"],
    book_themes := ["contemplation", "meaning", "reflection", "depth"],
    book_pacing := "slow",
    book_depth := "deep",
    book_keywords := ["contemplative", "philosophical", "deep", "thoughtful"],
    avoid_themes := ["superficial", "action-heavy", "shallow"],
    recommendation_strategy := "match" }),
  ("philosophical", {
    music_genres := ["classical", "ambient", "jazz", "experimental", "avant-garde"],
    music_energy := "low",
    music_vibe := ["intellectual", "deep", "complex", "thought-provoking"],
    music_keywords := ["philosophical", "deep", "intellectual", "complex"],
    movie_genres := ["Drama", "Science Fiction", "Documentary", "Art House"],
    movie_tone := "serious",
    movie_themes := ["existence", "meaning", "philosophy", "consciousness"],
    movie_keywords := ["philosophical", "profound", "thought-provoking", "deep"],
    book_genres := ["Philosophy", "Science", "Psychology", "Literary Fiction"],
    book_themes := ["philosophy", "existence", "meaning", "consciousness"],
    book_pacing := "slow",
    book_depth := "profound",
    book_keywords := ["philosophical", "deep", "meaning", "existence"],
    avoid_themes := ["simple", "escapist", "superficial"],
    recommendation_strategy := "match" }),
  ("curious", {
    music_genres := ["world", "jazz", "experimental", "eclectic", "indie"],
    music_energy := "medium",
    music_vibe := ["interesting", "diverse", "exploratory", "engaging"],
    music_keywords := ["discovery", "exploration", "learning", "diverse"],
    movie_genres := ["Documentary", "Science Fiction", "Mystery", "Adventure"],
    movie_tone := "balanced",
    movie_themes := ["discovery", "learning", "exploration", "knowledge"],
    movie_keywords := ["fascinating", "educational", "intriguing", "discovery"],
    book_genres := ["Non-fiction", "Science", "History", "Biography"],
    book_themes := ["curiosity", "discovery", "learning", "knowledge"],
    book_pacing := "moderate",
    book_depth := "medium",
    book_keywords := ["fascinating", "learning", "discovery", "educational"],
    avoid_themes := ["boring", "dry", "overly technical"],
    recommendation_strategy := "match" }),
  ("confused", {
    music_genres := ["ambient", "chill", "soft", "calming", "clear"],
    music_energy := "low",
    music_vibe := ["calming", "clarifying", "gentle", "peaceful"],
    music_keywords := ["clarity", "calm", "peaceful", "simple"],
    movie_genres := ["Drama", "Documentary", "Biography", "Animation"],
    movie_tone := "balanced",
    movie_themes := ["clarity", "understanding", "simplicity", "resolution"],
    movie_keywords := ["clear", "insightful", "understanding", "enlightening"],
    book_genres := ["Self-Help", "Philosophy", "Fiction", "Psychology"],
    book_themes := ["clarity", "understanding", "guidance", "insight"],
    book_pacing := "moderate",
    book_depth := "medium",
    book_keywords := ["clarity", "guidance", "understanding", "insight"],
    avoid_themes := ["complex", "confusing", "ambiguous"],
    recommendation_strategy := "uplift" }),
  ("stuck", {
    music_genres := ["uplifting", "motivational", "rock", "indie", "inspiring"],
    music_energy := "medium",
    music_vibe := ["motivating", "empowering", "uplifting", "moving"],
    music_keywords := ["breakthrough", "change", "motivation", "movement"],
    movie_genres := ["Biography", "Drama", "Documentary", "Sport"],
    movie_tone := "uplifting",
    movie_themes := ["breakthrough", "change", "transformation", "overcoming"],
    movie_keywords := ["inspiring", "transformative", "breakthrough", "motivating"],
    book_genres := ["Self-Help", "Biography", "Psychology", "Business"],
    book_themes := ["change", "breakthrough", "transformation", "progress"],
    book_pacing := "moderate",
    book_depth := "medium",
    book_keywords := ["breakthrough", "change", "transformation", "unstuck"],
    avoid_themes := ["stagnation", "hopeless", "trapped"],
    recommendation_strategy := "uplift" }),
  ("purposeful", {
    music_genres := ["orchestral", "epic", "motivational", "inspiring", "powerful"],
    music_energy := "high",
    music_vibe := ["powerful", "purposeful", "determined", "inspiring"],
    music_keywords := ["purpose", "meaning", "mission", "drive"],
    movie_genres := ["Biography", "Drama", "Documentary", "History"],
    movie_tone := "uplifting",
    movie_themes := ["purpose", "meaning", "mission", "impact"],
    movie_keywords := ["purposeful", "meaningful", "inspiring", "impactful"],
    book_genres := ["Biography", "Self-Help", "Philosophy", "Business"],
    book_themes := ["purpose", "meaning", "mission", "legacy"],
    book_pacing := "moderate",
    book_depth := "deep",
    book_keywords := ["purpose", "meaningful", "mission", "impact"],
    avoid_themes := ["meaningless", "aimless", "empty"],
    recommendation_strategy := "match" }),
  ("empty", {
    music_genres := ["ambient", "soft", "healing", "gentle", "hopeful"],
    music_energy := "low",
    music_vibe := ["gentle", "healing", "comforting", "filling"],
    music_keywords := ["healing", "comfort", "hope", "gentle"],
    movie_genres := ["Drama", "Animation", "Documentary", "Biography"],
    movie_tone := "balanced",
    movie_themes := ["healing", "recovery", "hope", "meaning"],
    movie_keywords := ["healing", "meaningful", "hopeful", "restorative"],
    book_genres := ["Self-Help", "Philosophy", "Fiction", "Poetry"],
    book_themes := ["healing", "meaning", "recovery", "fulfillment"],
    book_pacing := "slow",
    book_depth := "deep",
    book_keywords := ["healing", "meaning", "fulfillment", "hope"],
    avoid_themes := ["nihilistic", "dark", "hopeless"],
    recommendation_strategy := "uplift" }),
  ("overwhelmed", {
    music_genres := ["ambient", "meditation", "calm", "peaceful", "simple"],
    music_energy := "very_low",
    music_vibe := ["calming", "simplifying", "peaceful", "grounding"],
    music_keywords := ["calm", "simplicity", "peace", "grounding"],
    movie_genres := ["Animation", "Comedy", "Documentary", "Nature"],
    movie_tone := "light",
    movie_themes := ["simplicity", "peace", "clarity", "calm"],
    movie_keywords := ["simple", "calming", "peaceful", "gentle"],
    book_genres := ["Self-Help", "Poetry", "Fiction", "Meditation"],
    book_themes := ["simplicity", "mindfulness", "calm", "balance"],
    book_pacing := "slow",
    book_depth := "light",
    book_keywords := ["simplicity", "calm", "mindfulness", "peace"],
    avoid_themes := ["complex", "intense", "demanding", "chaotic"],
    recommendation_strategy := "uplift" }),
  ("bittersweet", {
    music_genres := ["indie", "folk", "acoustic", "melancholic", "emotional"],
    music_energy := "low",
    music_vibe := ["bittersweet", "nostalgic", "emotional", "reflective"],
    music_keywords := ["bittersweet", "nostalgic", "emotional", "poignant"],
    movie_genres := ["Drama", "Romance", "Coming-of-Age"],
    movie_tone := "balanced",
    movie_themes := ["bittersweet", "nostalgia", "change", "growth"],
    movie_keywords := ["bittersweet", "poignant", "moving", "emotional"],
    book_genres := ["Fiction", "Literary Fiction", "Poetry", "Memoir"],
    book_themes := ["bittersweet", "change", "transition", "nostalgia"],
    book_pacing := "slow",
    book_depth := "deep",
    book_keywords := ["bittersweet", "poignant", "emotional", "moving"],
    avoid_themes := ["overly happy", "overly sad", "extreme"],
    recommendation_strategy := "match" }),
  ("numb", {
    music_genres := ["ambient", "electronic", "post-rock", "atmospheric", "minimal"],
    music_energy := "low",
    music_vibe := ["atmospheric", "gentle", "awakening", "stirring"],
    music_keywords := ["awakening", "gentle", "stirring", "emotional"],
    movie_genres := ["Drama", "Art House", "Documentary"],
    movie_tone := "serious",
    movie_themes := ["awakening", "feeling", "connection", "recovery"],
    movie_keywords := ["awakening", "stirring", "emotional", "profound"],
    book_genres := ["Fiction", "Psychology", "Memoir", "Philosophy"],
    book_themes := ["awakening", "feeling", "recovery", "connection"],
    book_pacing := "slow",
    book_depth := "deep",
    book_keywords := ["awakening", "emotional", "recovery", "feeling"],
    avoid_themes := ["intense", "overwhelming", "harsh"],
    recommendation_strategy := "uplift" }),
  ("vengeful", {
    music_genres := ["rock", "metal", "intense", "powerful", "aggressive"],
    music_energy := "very_high",
    music_vibe := ["powerful", "intense", "cathartic", "strong"],
    music_keywords := ["power", "justice", "strength", "intense"],
    movie_genres := ["Action", "Thriller", "Drama"],
    movie_tone := "dark",
    movie_themes := ["justice", "empowerment", "strength", "overcoming"],
    movie_keywords := ["powerful", "intense", "justice", "cathartic"],
    book_genres := ["Thriller", "Fiction", "Psychology", "Self-Help"],
    book_themes := ["justice", "anger", "healing", "forgiveness"],
    book_pacing := "fast",
    book_depth := "medium",
    book_keywords := ["justice", "empowerment", "healing", "strength"],
    avoid_themes := ["weak", "passive", "forgiving too quickly"],
    recommendation_strategy := "channel" }),
  ("rebellious", {
    music_genres := ["punk", "rock", "alternative", "hip hop", "rebellious"],
    music_energy := "very_high",
    music_vibe := ["defiant", "powerful", "bold", "liberating"],
    music_keywords := ["rebellion", "freedom", "defiance", "power"],
    movie_genres := ["Drama", "Action", "Biography", "Thriller"],
    movie_tone := "intense",
    movie_themes := ["rebellion", "freedom", "independence", "justice"],
    movie_keywords := ["rebellious", "defiant", "liberating", "powerful"],
    book_genres := ["Fiction", "Biography", "History", "Young Adult"],
    book_themes := ["rebellion", "freedom", "independence", "defiance"],
    book_pacing := "fast",
    book_depth := "medium",
    book_keywords := ["rebellion", "freedom", "defiance", "independence"],
    avoid_themes := ["conformity", "submission", "passive"],
    recommendation_strategy := "channel" }),
  ("vulnerable", {
    music_genres := ["acoustic", "indie", "soft", "intimate", "emotional"],
    music_energy := "low",
    music_vibe := ["intimate", "gentle", "tender", "authentic"],
    music_keywords := ["vulnerable", "honest", "intimate", "authentic"],
    movie_genres := ["Drama", "Romance", "Biography"],
    movie_tone := "serious",
    movie_themes := ["vulnerability", "authenticity", "connection", "courage"],
    movie_keywords := ["honest", "intimate", "authentic", "tender"],
    book_genres := ["Memoir", "Fiction", "Poetry", "Self-Help"],
    book_themes := ["vulnerability", "authenticity", "courage", "openness"],
    book_pacing := "slow",
    book_depth := "deep",
    book_keywords := ["vulnerable", "authentic", "honest", "courage"],
    avoid_themes := ["harsh", "judgmental", "cold"],
    recommendation_strategy := "process" }),
  ("bored", {
    music_genres := ["eclectic", "diverse", "experimental", "interesting", "varied"],
    music_energy := "medium",
    music_vibe := ["interesting", "engaging", "stimulating", "diverse"],
    music_keywords := ["interesting", "engaging", "diverse", "stimulating"],
    movie_genres := ["Mystery", "Thriller", "Science Fiction", "Adventure"],
    movie_tone := "balanced",
    movie_themes := ["intrigue", "mystery", "adventure", "discovery"],
    movie_keywords := ["engaging", "intriguing", "captivating", "exciting"],
    book_genres := ["Mystery", "Thriller", "Science Fiction", "Adventure"],
    book_themes := ["mystery", "intrigue", "adventure", "discovery"],
    book_pacing := "fast",
    book_depth := "medium",
    book_keywords := ["engaging", "page-turner", "intriguing", "captivating"],
    avoid_themes := ["boring", "slow", "predictable", "dull"],
    recommendation_strategy := "escape" })
]

def MOOD_SIMILARITIES : List (String × List String) := [
  ("happy", ["excited", "playful", "content", "grateful"]),
  ("excited", ["happy", "energetic", "playful", "hyper"]),
  ("grateful", ["happy", "content", "peaceful", "loving"]),
  ("peaceful", ["calm", "content", "mellow", "drowsy"]),
  ("confident", ["proud", "motivated", "purposeful", "empowered"]),
  ("inspired", ["motivated", "curious", "purposeful", "excited"]),
  ("playful", ["happy", "excited", "social", "energetic"]),
  ("content", ["happy", "peaceful", "grateful", "calm"]),
  ("loving", ["romantic", "grateful", "warm", "affectionate"]),
  ("proud", ["confident", "happy", "accomplished", "motivated"]),
  ("sad", ["lonely", "heartbroken", "disappointed", "empty"]),
  ("anxious", ["stressed", "afraid", "overwhelmed", "restless"]),
  ("stressed", ["anxious", "overwhelmed", "burnt_out", "tired"]),
  ("angry", ["frustrated", "vengeful", "betrayed", "rebellious"]),
  ("lonely", ["sad", "homesick", "isolated", "misunderstood"]),
  ("heartbroken", ["sad", "betrayed", "disappointed", "empty"]),
  ("disappointed", ["sad", "hopeless", "let_down", "discouraged"]),
  ("guilty", ["ashamed", "regretful", "embarrassed", "remorseful"]),
  ("jealous", ["insecure", "envious", "angry", "inadequate"]),
  ("embarrassed", ["ashamed", "self-conscious", "awkward", "guilty"]),
  ("afraid", ["anxious", "scared", "worried", "panicked"]),
  ("hopeless", ["empty", "defeated", "sad", "despair"]),
  ("energetic", ["excited", "hyper", "motivated", "restless"]),
  ("tired", ["exhausted", "burnt_out", "sluggish", "drowsy"]),
  ("restless", ["anxious", "hyper", "bored", "antsy"]),
  ("sluggish", ["tired", "unmotivated", "low_energy", "mellow"]),
  ("hyper", ["excited", "energetic", "overstimulated", "restless"]),
  ("burnt_out", ["tired", "exhausted", "stressed", "depleted"]),
  ("mellow", ["calm", "relaxed", "peaceful", "content"]),
  ("drowsy", ["tired", "sleepy", "calm", "peaceful"]),
  ("social", ["playful", "happy", "outgoing", "friendly"]),
  ("introverted", ["contemplative", "peaceful", "alone", "reflective"]),
  ("romantic", ["loving", "affectionate", "passionate", "tender"]),
  ("nostalgic", ["bittersweet", "reflective", "sentimental", "wistful"]),
  ("homesick", ["nostalgic", "lonely", "longing", "missing"]),
  ("misunderstood", ["lonely", "frustrated", "isolated", "unheard"]),
  ("betrayed", ["hurt", "angry", "heartbroken", "vengeful"]),
  ("supported", ["grateful", "loved", "secure", "comforted"]),
  ("contemplative", ["introspective", "thoughtful", "philosophical", "reflective"]),
  ("philosophical", ["contemplative", "curious", "deep", "questioning"]),
  ("curious", ["interested", "engaged", "exploring", "learning"]),
  ("confused", ["uncertain", "lost", "overwhelmed", "unclear"]),
  ("stuck", ["frustrated", "stagnant", "trapped", "blocked"]),
  ("purposeful", ["motivated", "driven", "focused", "meaningful"]),
  ("empty", ["numb", "hollow", "sad", "unfulfilled"]),
  ("overwhelmed", ["stressed", "anxious", "drowning", "too_much"]),
  ("bittersweet", ["nostalgic", "mixed", "poignant", "emotional"]),
  ("numb", ["empty", "disconnected", "detached", "apathetic"]),
  ("vengeful", ["angry", "betrayed", "seeking_justice", "hurt"]),
  ("rebellious", ["defiant", "independent", "free", "bold"]),
  ("vulnerable", ["exposed", "sensitive", "open", "raw"]),
  ("bored", ["understimulated", "restless", "need_engagement", "uninterested"])
]

def MOOD_OPPOSITES : List (String × String) := [
  ("sad", "happy"),
  ("angry", "calm"),
  ("anxious", "peaceful"),
  ("stressed", "relaxed"),
  ("tired", "energetic"),
  ("lonely", "social"),
  ("hopeless", "inspired"),
  ("confused", "clear"),
  ("stuck", "flowing"),
  ("empty", "fulfilled"),
  ("bored", "engaged"),
  ("sluggish", "energetic"),
  ("overwhelmed", "calm"),
  ("numb", "feeling"),
  ("afraid", "confident")
]

/-- The category table hard-coded (identically) inside both
`get_mood_category` and `search_moods_by_category`. -/
def categories : List (String × List String) := [
  ("positive", ["happy", "excited", "grateful", "peaceful", "confident", "inspired", "playful", "content", "loving", "proud"]),
  ("negative", ["sad", "anxious", "stressed", "angry", "lonely", "heartbroken", "disappointed", "guilty", "jealous", "embarrassed", "afraid", "hopeless"]),
  ("energy", ["energetic", "tired", "restless", "sluggish", "hyper", "burnt_out", "mellow", "drowsy"]),
  ("social", ["social", "introverted", "romantic", "nostalgic", "homesick", "misunderstood", "betrayed", "supported"]),
  ("existential", ["contemplative", "philosophical", "curious", "confused", "stuck", "purposeful", "empty", "overwhelmed"]),
  ("complex", ["bittersweet", "numb", "vengeful", "rebellious", "vulnerable", "bored"])
]

/-- The key set of the taxonomy, in insertion order
(`list(MOOD_MAPPINGS.keys())`). -/
def moodKeys : List String := MOOD_MAPPINGS.map Prod.fst

/-- `MOOD_MAPPINGS[k]` (the `.copy()` of the source is a value copy, which
is the identity in this embedding). -/
def lookupMood (k : String) : Option MoodProfile :=
  (MOOD_MAPPINGS.find? (fun p => p.1 == k)).map Prod.snd

/-- `get_mood_mapping`: normalize, exact match against the taxonomy keys,
else fuzzy match with cutoff 0.6, else `None`. -/
def get_mood_mapping (mood : String) : Option MoodProfile :=
  let m := pyNormalize mood
  if moodKeys.contains m then lookupMood m
  else
    match getCloseMatch1 m.toList moodKeys 3 5 with
    | some k => lookupMood k
    | none => none

/-- The key set of the similarity graph, in insertion order. -/
def simKeys : List String := MOOD_SIMILARITIES.map Prod.fst

/-- `find_similar_moods`: exact lookup in `MOOD_SIMILARITIES`, else fuzzy
match at cutoff 0.7, else the empty list. -/
def find_similar_moods (mood : String) : List String :=
  let m := pyNormalize mood
  match (MOOD_SIMILARITIES.find? (fun p => p.1 == m)).map Prod.snd with
  | some l => l
  | none =>
    match getCloseMatch1 m.toList simKeys 7 10 with
    | some k => ((MOOD_SIMILARITIES.find? (fun p => p.1 == k)).map Prod.snd).getD []
    | none => []

/-- A mood mapping as the Python dict it is in the source: the 15 keys in
their literal insertion order. -/
def MoodProfile.toDict (p : MoodProfile) : List (String × PyVal) :=
  [("music_genres", .l p.music_genres),
   ("music_energy", .s p.music_energy),
   ("music_vibe", .l p.music_vibe),
   ("music_keywords", .l p.music_keywords),
   ("movie_genres", .l p.movie_genres),
   ("movie_tone", .s p.movie_tone),
   ("movie_themes", .l p.movie_themes),
   ("movie_keywords", .l p.movie_keywords),
   ("book_genres", .l p.book_genres),
   ("book_themes", .l p.book_themes),
   ("book_pacing", .s p.book_pacing),
   ("book_depth", .s p.book_depth),
   ("book_keywords", .l p.book_keywords),
   ("avoid_themes", .l p.avoid_themes),
   ("recommendation_strategy", .s p.recommendation_strategy)]

/-- `list(dict.fromkeys(.))`: deduplicate keeping the first occurrence of
each element, preserving order (`seen` accumulates what was kept). -/
def pyDedupAux (seen : List String) : List String → List String
  | [] => []
  | x :: xs =>
    if seen.contains x then pyDedupAux seen xs
    else x :: pyDedupAux (x :: seen) xs

/-- `list(dict.fromkeys(l))`. -/
def pyDedup (l : List String) : List String := pyDedupAux [] l

/-- Python `l * n`: the list concatenated with itself `n` times. -/
def listRepeat (l : List String) (n : Nat) : List String :=
  (List.replicate n l).flatten

/-- The repetition count of the mapping at position `i` out of `n`:
`max(1, int(weight * 10))` with `weight = 0.6` for the primary and
`0.4 / (n - 1)` for each secondary.  Under float semantics
`int(0.6 * 10) = 6` and `int(0.4 / m * 10) = ⌊4 / m⌋` for every `m ≥ 1`:
the products are `4.0`, `2.0`, `1.33…`, `1.0` for `m = 1..4` and strictly
below `1` from `m = 5` on (the float roundings stay well inside those
integer gaps). -/
def repsFor (i n : Nat) : Nat := if i = 0 then 6 else max 1 (4 / (n - 1))

/-- The pooled, weight-repeated list of one list-valued attribute over all
contributing mappings (the `all_*.extend(mapping.get(…) * repetitions)`
loop). -/
def pool (f : MoodProfile → List String) (ms : List MoodProfile) : List String :=
  (ms.enum.map (fun e => listRepeat (f e.2) (repsFor e.1 ms.length))).flatten

/-- `energy_map = {"very_low": 1, …}` of `merge_mood_mappings`. -/
def energy_map : List (String × Nat) :=
  [("very_low", 1), ("low", 2), ("medium", 3), ("high", 4), ("very_high", 5)]

/-- `reverse_energy_map = {1: "very_low", …}` of `merge_mood_mappings`. -/
def reverse_energy_map : List (Int × String) :=
  [(1, "very_low"), (2, "low"), (3, "medium"), (4, "high"), (5, "very_high")]

/-- `energy_map.get(e, 3)`. -/
def energyOrdinal (e : String) : Nat :=
  ((energy_map.find? (fun p => p.1 == e)).map Prod.snd).getD 3

/-- Python `round()` on the exact rational value: round to the nearest
integer, halves to the even neighbour, computed with integer arithmetic:
`fl = ⌊q⌋` (`Int.fdiv`, floor division, `q.den` is positive) and the
remainder `r = q.num - fl * q.den ∈ [0, q.den)` place `q` below, above or
exactly on the half-integer according as `2r` compares with `q.den`.
The source rounds the float `sum(...) / len(...)`; the sums and lengths
at hand keep the exact rational either exactly on a half-integer (then it
is exactly representable and the float `round` agrees) or at least
`1 / 104` away from every half-integer, far beyond the float division
error, so rounding the exact rational is faithful. -/
def pyRound (q : ℚ) : ℤ :=
  let fl : ℤ := Int.fdiv q.num q.den
  let r : ℤ := q.num - fl * q.den
  if 2 * r < q.den then fl
  else if (q.den : ℤ) < 2 * r then fl + 1
  else if 2 ∣ fl then fl else fl + 1

/-- The weighted-average energy string:
`reverse_energy_map[round(sum(ordinals) / len)]` (the lookup never misses:
each ordinal is in `1..5`, hence so is the rounded mean; the `getD ""`
default is dead code standing in for the `KeyError` Python would raise). -/
def mergedEnergy (ms : List MoodProfile) : String :=
  let avg : ℚ := mkRat
    (Int.ofNat (ms.map (fun m => energyOrdinal m.music_energy)).sum) ms.length
  ((reverse_energy_map.find? (fun p => p.1 == pyRound avg)).map Prod.snd).getD ""

/-- The merge body for two or more labels once the resolved mappings are
known to be nonempty (`primary` is `mappings[0]`).  The dict is written
with its final values directly: the source first initializes it and then
reassigns the pooled keys, which leaves the insertion order unchanged.
Scalar fields use `primary.get(key, default)`; every profile defines
every key, so the defaults are never taken and the access is plain field
access. -/
def mergeMany (primary : MoodProfile) (rest : List MoodProfile) :
    List (String × PyVal) :=
  let mappings := primary :: rest
  let dedupT := fun (f : MoodProfile → List String) (b : Nat) =>
    (pyDedup (pool f mappings)).take b
  [("music_genres", .l (dedupT (fun m => m.music_genres) 8)),
   ("music_energy", .s (mergedEnergy mappings)),
   ("music_vibe", .l (dedupT (fun m => m.music_vibe) 5)),
   ("music_keywords", .l (dedupT (fun m => m.music_keywords) 6)),
   ("movie_genres", .l (dedupT (fun m => m.movie_genres) 4)),
   ("movie_tone", .s primary.movie_tone),
   ("movie_themes", .l (dedupT (fun m => m.movie_themes) 6)),
   ("movie_keywords", .l (dedupT (fun m => m.movie_keywords) 5)),
   ("book_genres", .l (dedupT (fun m => m.book_genres) 4)),
   ("book_themes", .l (dedupT (fun m => m.book_themes) 6)),
   ("book_pacing", .s primary.book_pacing),
   ("book_depth", .s primary.book_depth),
   ("book_keywords", .l (dedupT (fun m => m.book_keywords) 5)),
   ("avoid_themes", .l ((pyDedup ((mappings.map
       (fun m => m.avoid_themes)).flatten)).take 5)),
   ("recommendation_strategy", .s primary.recommendation_strategy)]

/-- `merge_mood_mappings`: empty input falls back to
`get_mood_mapping("calm") or {}`; a single label short-circuits to
`get_mood_mapping(moods[0]) or {}`; otherwise the labels are resolved,
unresolvable ones silently dropped, and the remaining mappings merged
(`{}` if none survive). -/
def merge_mood_mappings (moods : List String) : List (String × PyVal) :=
  match moods with
  | [] =>
    match get_mood_mapping "calm" with
    | some p => p.toDict
    | none => []
  | [m] =>
    match get_mood_mapping m with
    | some p => p.toDict
    | none => []
  | _ =>
    match moods.filterMap get_mood_mapping with
    | [] => []
    | primary :: rest => mergeMany primary rest

/-- `get_mood_category`: normalize, exact membership in the hard-coded
category lists; failing that, if the label fuzzy-resolves
(`get_mood_mapping`), re-check every known mood at the stricter cutoff
0.8 and return the first category containing a 0.8-match; otherwise
`"unknown"`. -/
def get_mood_category (mood : String) : String :=
  let m := pyNormalize mood
  match categories.find? (fun c => c.2.contains m) with
  | some c => c.1
  | none =>
    match get_mood_mapping m with
    | some _ =>
      match categories.find? (fun c =>
          c.2.any (fun known => ratioGe known.toList m.toList 4 5)) with
      | some c => c.1
      | none => "unknown"
    | none => "unknown"

/-- The category bucket a taxonomy key is declared in: the first category
whose list contains it (§3's `category` attribute lives in this table). -/
def declaredCategory (k : String) : Option String :=
  (categories.find? (fun c => c.2.contains k)).map Prod.fst

/-- The music genre list of `resolve(mood)` (empty when unresolved). -/
def resolvedGenres (mood : String) : List String :=
  ((get_mood_mapping mood).map (fun p => p.music_genres)).getD []

/-- The final merged music genre list of `merge(["happy", "energetic"])`. -/
def mergedGenresHE : List String :=
  match dget (merge_mood_mappings ["happy", "energetic"]) "music_genres" with
  | some (PyVal.l v) => v
  | _ => []

/-- The elements of `xs` that do not occur in `ys`. -/
def uniqueTo (xs ys : List String) : List String :=
  xs.filter (fun g => !ys.contains g)

/-- The related moods listed in `MOOD_SIMILARITIES` that are not taxonomy
keys (orphaned references), deduplicated. -/
def similarityOrphans : List String :=
  pyDedup ((MOOD_SIMILARITIES.map
    (fun p => p.2.filter (fun v => !moodKeys.contains v))).flatten)


set_option maxRecDepth 100000
/-! ## Helper lemmas -/

/-- A key that occurs among the first components of an association list is
found by `find?`. -/
theorem find_isSome_of_mem_fst {β : Type} (l : List (String × β)) (k : String)
    (h : k ∈ l.map Prod.fst) : (l.find? fun p => p.1 == k).isSome = true := by
  induction l with
  | nil => simp at h
  | cons a l ih =>
    simp only [List.map_cons, List.mem_cons] at h
    by_cases hk : a.1 == k
    · simp [List.find?, hk]
    · rcases h with h | h
      · exact absurd (beq_iff_eq.mpr h.symm) (by simpa using hk)
      · simpa [List.find?, hk] using ih h

/-- If exactly one element of `l` satisfies `p` then any two members
satisfying `p` coincide. -/
theorem eq_of_countP_eq_one {α : Type} {p : α → Bool} {l : List α}
    (h : l.countP p = 1) {a b : α} (ha : a ∈ l) (hb : b ∈ l)
    (hpa : p a = true) (hpb : p b = true) : a = b := by
  rw [List.countP_eq_length_filter, List.length_eq_one] at h
  obtain ⟨x, hx⟩ := h
  have h1 : a ∈ l.filter p := List.mem_filter.mpr ⟨ha, hpa⟩
  have h2 : b ∈ l.filter p := List.mem_filter.mpr ⟨hb, hpb⟩
  rw [hx] at h1 h2
  simp at h1 h2
  rw [h1, h2]

/-- If exactly one element satisfies `p` and `a` is a member satisfying
`p`, the filtered list is exactly `[a]`. -/
theorem filter_eq_singleton_of_countP_eq_one {α : Type} {p : α → Bool}
    {l : List α} (h : l.countP p = 1) {a : α} (ha : a ∈ l)
    (hpa : p a = true) : l.filter p = [a] := by
  have hc := h
  rw [List.countP_eq_length_filter, List.length_eq_one] at hc
  obtain ⟨x, hx⟩ := hc
  have h1 : a ∈ l.filter p := List.mem_filter.mpr ⟨ha, hpa⟩
  rw [hx] at h1
  simp at h1
  rw [hx, h1]

/-- Every taxonomy key clears the 0.6 similarity cutoff against itself. -/
theorem moodKeys_self_close :
    (moodKeys.all fun k => ratioGe k.toList k.toList 3 5) = true := by decide

/-- Every taxonomy key occurs in the hard-coded category table. -/
theorem moodKeys_have_category :
    (moodKeys.all fun k =>
      (categories.find? fun c => c.2.contains k).isSome) = true := by decide

/-- No category bucket is named "unknown". -/
theorem category_names_not_unknown :
    (categories.all fun c => c.1 != "unknown") = true := by decide

/-! ## Claims -/

/-- C4: the claim that every related mood listed in the SimilarityGraph is
itself a valid taxonomy key fails: `"peaceful"`'s related list contains
`"calm"`, which is not a key of `MOOD_MAPPINGS`. -/
theorem C4_counterexample_thm :
    (find_similar_moods "peaceful").contains "calm" = true ∧
    moodKeys.contains "calm" = false ∧
    (MOOD_SIMILARITIES.all fun p =>
      p.2.all fun v => moodKeys.contains v) = false := by
  refine ⟨by decide, by decide, by decide⟩

/-- C4 (amended): the SimilarityGraph's keys are exactly the taxonomy keys
(in the same order), but its related-mood lists reference 85 distinct
moods that are not taxonomy keys (101 orphaned references in all),
`"calm"` among them. -/
theorem C4_amended_thm :
    MOOD_SIMILARITIES.map Prod.fst = moodKeys ∧
    similarityOrphans.length = 85 ∧
    ((MOOD_SIMILARITIES.map
      (fun p => p.2.filter (fun v => !moodKeys.contains v))).flatten).length
        = 101 ∧
    similarityOrphans.contains "calm" = true := by
  refine ⟨by decide, by decide, by decide, by decide⟩

/-- C7: every taxonomy key appears in exactly one category bucket of the
hard-coded category table (no duplicates across buckets, no omissions:
the buckets hold 52 entries in total, one per key), and `get_mood_category`
on any taxonomy key returns a non-"unknown" category. -/
theorem C7_thm :
    (moodKeys.all fun k =>
      ((categories.map fun c => c.2.countP (fun m => m == k)).sum = 1)) = true ∧
    (categories.map fun c => c.2.length).sum = 52 ∧
    moodKeys.length = 52 ∧
    (moodKeys.all fun k => get_mood_category k != "unknown") = true := by
  refine ⟨by decide, by decide, by decide, by decide⟩

/-- C6: in `merge(["happy", "energetic"])` with default weights, every
music genre unique to `resolve("happy")` appears in the final
deduplicated, truncated merged genre list, at a position no later than
any genre unique to `"energetic"` that appears there (the primary mood's
items occupy the early positions). -/
theorem C6_thm :
    mergedGenresHE = ["upbeat pop", "indie pop", "dance", "feel good",
      "sunshine", "electronic", "rock", "hip hop"] ∧
    ((uniqueTo (resolvedGenres "happy") (resolvedGenres "energetic")).all
      fun g => mergedGenresHE.contains g &&
        ((uniqueTo (resolvedGenres "energetic") (resolvedGenres "happy")).all
          fun h => !mergedGenresHE.contains h ||
            decide (mergedGenresHE.indexOf g ≤ mergedGenresHE.indexOf h)))
      = true := by
  refine ⟨by decide, by decide⟩

/-! ## Merge reduction helpers -/

/-- Reducing `merge_mood_mappings` on a list of two or more labels to the
merge body over the resolved mappings. -/
theorem merge_eq_mergeMany (a b : String) (l : List String)
    (p : MoodProfile) (rest : List MoodProfile)
    (hfm : (a :: b :: l).filterMap get_mood_mapping = p :: rest) :
    merge_mood_mappings (a :: b :: l) = mergeMany p rest := by
  have key : merge_mood_mappings (a :: b :: l) =
      match (a :: b :: l).filterMap get_mood_mapping with
      | [] => ([] : List (String × PyVal))
      | primary :: r => mergeMany primary r := rfl
  rw [key, hfm]

/-- Prepending labels that fail to resolve leaves the resolved-mapping
list unchanged. -/
theorem filterMap_of_all_none (pre : List String) (l : List String)
    (hfail : ∀ x ∈ pre, get_mood_mapping x = none) :
    (pre ++ l).filterMap get_mood_mapping = l.filterMap get_mood_mapping := by
  induction pre with
  | nil => rfl
  | cons a t ih =>
    rw [List.cons_append, List.filterMap_cons, hfail a (by simp)]
    exact ih (fun x hx => hfail x (by simp [hx]))

/-- Past the head, the repetition count is the same for every secondary
mapping. -/
theorem enumFrom_reps (f : MoodProfile → List String) (n : Nat) :
    ∀ (vs : List MoodProfile) (k : Nat), 1 ≤ k →
      (List.enumFrom k vs).map
          (fun e => listRepeat (f e.2) (repsFor e.1 n)) =
        vs.map (fun q => listRepeat (f q) (max 1 (4 / (n - 1)))) := by
  intro vs
  induction vs with
  | nil => intro k _; rfl
  | cons q vs ih =>
    intro k hk
    simp only [List.enumFrom, List.map_cons]
    rw [ih (k + 1) (by omega)]
    have : repsFor k n = max 1 (4 / (n - 1)) := by
      unfold repsFor
      rw [if_neg (by omega)]
    rw [this]

/-- The pooled list of a nonempty mapping list: six copies of the primary
mood's items, then `max(1, 4 div (number of secondaries))` copies of each
secondary's items. -/
theorem pool_cons (f : MoodProfile → List String) (p : MoodProfile)
    (vs : List MoodProfile) :
    pool f (p :: vs) = listRepeat (f p) 6 ++
      (vs.map fun q => listRepeat (f q) (max 1 (4 / vs.length))).flatten := by
  unfold pool
  have h1 : (p :: vs).enum = (0, p) :: List.enumFrom 1 vs := rfl
  rw [h1]
  simp only [List.map_cons, List.flatten_cons]
  rw [enumFrom_reps f (p :: vs).length vs 1 (by omega)]
  have h2 : repsFor 0 (p :: vs).length = 6 := rfl
  rw [h2]
  have h3 : (p :: vs).length - 1 = vs.length := by simp
  rw [h3]

/-- C5: for every merge of two or more labels whose first label resolves,
the merged profile's movie tone, book pacing, book depth and
recommendation strategy are those of the first (primary) label's resolved
profile, unchanged by the secondary moods. -/
theorem C5_thm (m0 : String) (ms : List String) (p : MoodProfile)
    (h : get_mood_mapping m0 = some p) (hne : ms ≠ []) :
    dget (merge_mood_mappings (m0 :: ms)) "movie_tone" =
      some (PyVal.s p.movie_tone) ∧
    dget (merge_mood_mappings (m0 :: ms)) "book_pacing" =
      some (PyVal.s p.book_pacing) ∧
    dget (merge_mood_mappings (m0 :: ms)) "book_depth" =
      some (PyVal.s p.book_depth) ∧
    dget (merge_mood_mappings (m0 :: ms)) "recommendation_strategy" =
      some (PyVal.s p.recommendation_strategy) := by
  obtain ⟨m1, ms', rfl⟩ : ∃ a l, ms = a :: l := by
    cases ms with
    | nil => exact absurd rfl hne
    | cons a l => exact ⟨a, l, rfl⟩
  rw [merge_eq_mergeMany m0 m1 ms' p ((m1 :: ms').filterMap get_mood_mapping)
    (by rw [List.filterMap_cons, h])]
  exact ⟨rfl, rfl, rfl, rfl⟩

/-- C5 witness: `merge(["heartbroken", "sad", "lonely"])` keeps
`resolve("heartbroken")`'s strategy, `"process"`. -/
theorem C5_witness :
    dget (merge_mood_mappings ["heartbroken", "sad", "lonely"])
      "recommendation_strategy" = some (PyVal.s "process") := by
  obtain ⟨p, hp⟩ : ∃ p, get_mood_mapping "heartbroken" = some p := ⟨_, rfl⟩
  have hs : (get_mood_mapping "heartbroken").map
      (fun x => x.recommendation_strategy) = some "process" := rfl
  rw [hp, Option.map_some'] at hs
  have h2 : p.recommendation_strategy = "process" := by injection hs
  rw [(C5_thm "heartbroken" ["sad", "lonely"] p hp (by simp)).2.2.2, h2]

/-- C10: when the first label of a multi-label merge fails to resolve but a
later one resolves, the first successfully resolved label becomes the
primary mood: the resolved-mapping list starts with its profile, that
profile supplies the merged movie tone, book pacing, book depth and
recommendation strategy, and its list items are repeated six times
(the 0.6 primary weight) at the head of the pooled lists. -/
theorem C10_thm (pre : List String) (m : String) (rest : List String)
    (p : MoodProfile) (hpre : pre ≠ [])
    (hfail : ∀ x ∈ pre, get_mood_mapping x = none)
    (hm : get_mood_mapping m = some p) :
    (pre ++ m :: rest).filterMap get_mood_mapping =
      p :: rest.filterMap get_mood_mapping ∧
    dget (merge_mood_mappings (pre ++ m :: rest)) "movie_tone" =
      some (PyVal.s p.movie_tone) ∧
    dget (merge_mood_mappings (pre ++ m :: rest)) "book_pacing" =
      some (PyVal.s p.book_pacing) ∧
    dget (merge_mood_mappings (pre ++ m :: rest)) "book_depth" =
      some (PyVal.s p.book_depth) ∧
    dget (merge_mood_mappings (pre ++ m :: rest)) "recommendation_strategy" =
      some (PyVal.s p.recommendation_strategy) ∧
    pool (fun x => x.music_genres)
        ((pre ++ m :: rest).filterMap get_mood_mapping) =
      listRepeat p.music_genres 6 ++
        ((rest.filterMap get_mood_mapping).map fun q =>
          listRepeat q.music_genres
            (max 1 (4 / (rest.filterMap get_mood_mapping).length))).flatten := by
  have hfm : (pre ++ m :: rest).filterMap get_mood_mapping =
      p :: rest.filterMap get_mood_mapping := by
    rw [filterMap_of_all_none pre (m :: rest) hfail, List.filterMap_cons, hm]
  obtain ⟨a, pre', rfl⟩ : ∃ a l, pre = a :: l := by
    cases pre with
    | nil => exact absurd rfl hpre
    | cons a l => exact ⟨a, l, rfl⟩
  obtain ⟨b, L, hL⟩ : ∃ b l, pre' ++ m :: rest = b :: l := by
    cases pre' with
    | nil => exact ⟨m, rest, rfl⟩
    | cons x xs => exact ⟨x, xs ++ m :: rest, rfl⟩
  have hlist : (a :: pre') ++ m :: rest = a :: b :: L := by
    rw [List.cons_append, hL]
  rw [hlist] at hfm ⊢
  rw [merge_eq_mergeMany a b L p (rest.filterMap get_mood_mapping) hfm, hfm,
    pool_cons]
  exact ⟨rfl, rfl, rfl, rfl, rfl, rfl⟩

/-- C10 witness: in `merge(["qqq", "sad", "excited"])` the unresolvable
`"qqq"` is dropped and `"sad"` becomes the primary mood, supplying the
strategy `"process"`. -/
theorem C10_witness :
    dget (merge_mood_mappings (["qqq"] ++ "sad" :: ["excited"]))
      "recommendation_strategy" = some (PyVal.s "process") := by
  obtain ⟨p, hp⟩ : ∃ p, get_mood_mapping "sad" = some p := ⟨_, rfl⟩
  have hs : (get_mood_mapping "sad").map
      (fun x => x.recommendation_strategy) = some "process" := rfl
  rw [hp, Option.map_some'] at hs
  have h := C10_thm ["qqq"] "sad" ["excited"] p (by simp)
    (by intro x hx; simp only [List.mem_singleton] at hx; subst hx; decide) hp
  have h2 : p.recommendation_strategy = "process" := by injection hs
  rw [h.2.2.2.2.1, h2]

/-- C1 counterexample: `merge(["sad", "excited"])` has music energy
`"high"`, not the `"medium"` the claim's weighted-average formula
(0.6×2 + 0.4×5 = 3.2 → 3) predicts. -/
theorem C1_counterexample_thm :
    dget (merge_mood_mappings ["sad", "excited"]) "music_energy" =
      some (PyVal.s "high") ∧ "high" ≠ "medium" :=
  ⟨by decide, by decide⟩

/-- C1 (amended): in a multi-mood merge the resulting music energy is the
UNWEIGHTED arithmetic mean of the resolved moods' energy ordinals
(very_low=1 … very_high=5), rounded by Python's `round` (half to even)
and mapped back through the enum table — the 0.6/0.4 weights play no
role.  For `merge(["sad", "excited"])`: sad=low=2, excited=very_high=5,
mean (2+5)/2 = 3.5, `round(3.5) = 4`, i.e. `"high"`; swapping the two
moods (which would change a weighted mean to 3.8 → 4) gives the same
result. -/
theorem C1_amended_thm :
    (∀ (moods : List String) (p : MoodProfile) (rest : List MoodProfile),
      2 ≤ moods.length →
      moods.filterMap get_mood_mapping = p :: rest →
      dget (merge_mood_mappings moods) "music_energy" =
        some (PyVal.s (mergedEnergy (p :: rest)))) ∧
    energyOrdinal "low" = 2 ∧
    energyOrdinal "very_high" = 5 ∧
    pyRound (mkRat (2 + 5) 2) = 4 ∧
    (reverse_energy_map.find? (fun e => e.1 == 4)).map Prod.snd =
      some "high" ∧
    dget (merge_mood_mappings ["sad", "excited"]) "music_energy" =
      some (PyVal.s "high") ∧
    dget (merge_mood_mappings ["excited", "sad"]) "music_energy" =
      some (PyVal.s "high") := by
  refine ⟨?_, by decide, by decide, by decide, by decide, by decide, by decide⟩
  intro moods p rest h2 hfm
  obtain ⟨m0, m1, ms, rfl⟩ : ∃ a b l, moods = a :: b :: l := by
    cases moods with
    | nil => simp at h2
    | cons a t =>
      cases t with
      | nil => simp at h2
      | cons b l => exact ⟨a, b, l, rfl⟩
  rw [merge_eq_mergeMany m0 m1 ms p rest hfm]
  rfl

/-- C1 witness: the general energy formula applied to
`merge(["sad", "excited"])` yields `"high"`. -/
theorem C1_witness :
    dget (merge_mood_mappings ["sad", "excited"]) "music_energy" =
      some (PyVal.s "high") := by
  obtain ⟨p, rest, hp⟩ : ∃ p rest,
      (["sad", "excited"]).filterMap get_mood_mapping = p :: rest :=
    ⟨_, _, rfl⟩
  rw [C1_amended_thm.1 ["sad", "excited"] p rest (by decide) hp,
    show p :: rest = (["sad", "excited"]).filterMap get_mood_mapping
      from hp.symm]
  decide

/-- C9: for EVERY merge call with at least one label in which every label
fails to resolve, merge returns the empty dict (both the single-label
short-circuit and the multi-label `if not mappings` branch), so every
field lookup on the result is absent — it reads as a profile with empty
list fields under `.get`-with-default access — and nothing is raised (the
embedding is a total function); concretely,
`merge(["totally_unrecognized_xyz"])` is `{}`. -/
theorem C9_thm :
    (∀ (moods : List String), moods ≠ [] →
      (∀ x ∈ moods, get_mood_mapping x = none) →
      merge_mood_mappings moods = [] ∧
      ∀ k : String, dget (merge_mood_mappings moods) k = none) ∧
    get_mood_mapping "totally_unrecognized_xyz" = none ∧
    merge_mood_mappings ["totally_unrecognized_xyz"] = [] ∧
    (["music_genres", "music_vibe", "music_keywords", "movie_genres",
      "movie_themes", "movie_keywords", "book_genres", "book_themes",
      "book_keywords", "avoid_themes"].all fun k =>
        dget (merge_mood_mappings ["totally_unrecognized_xyz"]) k == none)
      = true := by
  have hgen : ∀ (moods : List String), moods ≠ [] →
      (∀ x ∈ moods, get_mood_mapping x = none) →
      merge_mood_mappings moods = [] := by
    intro moods hne hall
    match moods, hne with
    | [m], _ =>
      show (match get_mood_mapping m with
        | some p => p.toDict
        | none => ([] : List (String × PyVal))) = []
      rw [hall m (by simp)]
    | m0 :: m1 :: ms, _ =>
      have hfm : (m0 :: m1 :: ms).filterMap get_mood_mapping = [] := by
        have h := filterMap_of_all_none (m0 :: m1 :: ms) [] hall
        simpa using h
      show (match (m0 :: m1 :: ms).filterMap get_mood_mapping with
        | [] => ([] : List (String × PyVal))
        | primary :: r => mergeMany primary r) = []
      rw [hfm]
  have h1 : get_mood_mapping "totally_unrecognized_xyz" = none := by decide
  have h2 : merge_mood_mappings ["totally_unrecognized_xyz"] = [] := by
    show (match get_mood_mapping "totally_unrecognized_xyz" with
      | some p => p.toDict
      | none => ([] : List (String × PyVal))) = []
    rw [h1]
  refine ⟨?_, h1, h2, ?_⟩
  · intro moods hne hall
    refine ⟨hgen moods hne hall, ?_⟩
    intro k
    rw [hgen moods hne hall]
    rfl
  · rw [List.all_eq_true]
    intro k _
    rw [h2]
    rfl

/-- C9 witness: the all-unresolvable law applied at the claim's example
`merge(["totally_unrecognized_xyz"])` (single-label branch) and at the
two-label all-unresolvable `merge(["qqq", "zzz"])` (multi-label branch). -/
theorem C9_witness :
    merge_mood_mappings ["totally_unrecognized_xyz"] = [] ∧
    merge_mood_mappings ["qqq", "zzz"] = [] ∧
    dget (merge_mood_mappings ["qqq", "zzz"]) "music_genres" = none := by
  have h2 := C9_thm.1 ["qqq", "zzz"] (by simp) (by decide)
  exact ⟨(C9_thm.1 ["totally_unrecognized_xyz"] (by simp) (by decide)).1,
    h2.1, h2.2 "music_genres"⟩

/-- C3: the empty-input fallback of `merge_mood_mappings` calls
`get_mood_mapping("calm")`, but `"calm"` is not a taxonomy key and
fuzzy-matches `"social"` (ratio exactly 0.6), so `merge([])` returns the
"social" profile — an upbeat, high-energy party profile, not a neutral
calm-equivalent baseline. -/
theorem C3_thm :
    moodKeys.contains "calm" = false ∧
    get_mood_mapping "calm" = lookupMood "social" ∧
    (merge_mood_mappings []).map Prod.fst =
      ["music_genres", "music_energy", "music_vibe", "music_keywords",
       "movie_genres", "movie_tone", "movie_themes", "movie_keywords",
       "book_genres", "book_themes", "book_pacing", "book_depth",
       "book_keywords", "avoid_themes", "recommendation_strategy"] ∧
    dget (merge_mood_mappings []) "music_energy" = some (PyVal.s "high") ∧
    dget (merge_mood_mappings []) "music_genres" =
      some (PyVal.l ["pop", "dance", "party", "funk", "upbeat"]) := by
  have hc : get_mood_mapping "calm" = lookupMood "social" := by decide
  obtain ⟨q, hq⟩ : ∃ q, lookupMood "social" = some q := ⟨_, rfl⟩
  have hm : merge_mood_mappings [] = q.toDict := by
    show (match get_mood_mapping "calm" with
      | some p => p.toDict
      | none => ([] : List (String × PyVal))) = q.toDict
    rw [hc, hq]
  have he : (lookupMood "social").map (fun p => p.music_energy) =
      some "high" := rfl
  rw [hq, Option.map_some'] at he
  have hg : (lookupMood "social").map (fun p => p.music_genres) =
      some ["pop", "dance", "party", "funk", "upbeat"] := rfl
  rw [hq, Option.map_some'] at hg
  refine ⟨by decide, hc, ?_, ?_, ?_⟩
  · rw [hm]; rfl
  · rw [hm]
    show some (PyVal.s q.music_energy) = some (PyVal.s "high")
    have he' : q.music_energy = "high" := by injection he
    rw [he']
  · rw [hm]
    show some (PyVal.l q.music_genres) =
      some (PyVal.l ["pop", "dance", "party", "funk", "upbeat"])
    have hg' : q.music_genres = ["pop", "dance", "party", "funk", "upbeat"] := by
      injection hg
    rw [hg']

/-- C2 counterexample: `"hap"` fuzzy-resolves (to the `"happy"` profile,
ratio 0.75 ≥ 0.6), yet `get_mood_category("hap")` returns `"unknown"`,
because the category re-check uses the stricter 0.8 cutoff that no known
mood clears. -/
theorem C2_counterexample_thm :
    get_mood_mapping "hap" = lookupMood "happy" ∧
    (lookupMood "happy").isSome = true ∧
    get_mood_category "hap" = "unknown" :=
  ⟨by decide, by decide, by decide⟩

/-- C2 (amended): the resolve/category consistency holds for every label
that normalizes to an exact taxonomy key: `resolve` succeeds and
`category_of` returns that mood's declared, non-"unknown" category.  For
labels that resolve only fuzzily (similarity in [0.6, 0.8) to every known
mood) `category_of` can return "unknown" — see the counterexample. -/
theorem C2_amended_thm (label : String)
    (h : moodKeys.contains (pyNormalize label) = true) :
    (get_mood_mapping label).isSome = true ∧
    get_mood_category label ≠ "unknown" ∧
    some (get_mood_category label) = declaredCategory (pyNormalize label) := by
  have hmem : pyNormalize label ∈ moodKeys := by simpa using h
  have h1 : get_mood_mapping label = lookupMood (pyNormalize label) := by
    simp [get_mood_mapping, h]
    intro hn
    exact absurd hmem hn
  have h2 : (lookupMood (pyNormalize label)).isSome = true := by
    unfold lookupMood
    cases hfind : MOOD_MAPPINGS.find? (fun p => p.1 == pyNormalize label) with
    | none =>
      have hs := find_isSome_of_mem_fst MOOD_MAPPINGS (pyNormalize label) hmem
      rw [hfind] at hs
      simp at hs
    | some v => rfl
  have hfind : (categories.find? fun c =>
      c.2.contains (pyNormalize label)).isSome = true := by
    simpa using List.all_eq_true.mp moodKeys_have_category _ hmem
  obtain ⟨c, hc⟩ := Option.isSome_iff_exists.mp hfind
  have h3 : get_mood_category label = c.1 := by
    simp only [get_mood_category]
    rw [hc]
  have hcmem : c ∈ categories := List.mem_of_find?_eq_some hc
  have hname := List.all_eq_true.mp category_names_not_unknown _ hcmem
  refine ⟨by rw [h1]; exact h2, ?_, ?_⟩
  · rw [h3]
    simpa using hname
  · rw [h3]
    unfold declaredCategory
    rw [hc]
    rfl

/-- C2 witness: `" HaPpY "` normalizes to the exact key `"happy"`, so it
resolves and its category is not "unknown". -/
theorem C2_witness :
    (get_mood_mapping " HaPpY ").isSome = true ∧
    get_mood_category " HaPpY " ≠ "unknown" := by
  have h := C2_amended_thm " HaPpY " (by decide)
  exact ⟨h.1, h.2.1⟩

/-- C8: `get_mood_mapping` resolves any label whose normalization clears
the 0.6 similarity cutoff against exactly one taxonomy key to that key's
profile; it returns `none` (without raising — the embedding is a total
function) for any label below the cutoff for every key; concretely,
`"hapy"` resolves to the `"happy"` profile, and `"xyzabc"` and the empty
string resolve to `none`. -/
theorem C8_thm :
    (∀ (s k : String), k ∈ moodKeys →
      ratioGe k.toList (pyNormalize s).toList 3 5 = true →
      moodKeys.countP
        (fun x => ratioGe x.toList (pyNormalize s).toList 3 5) = 1 →
      get_mood_mapping s = lookupMood k ∧ (lookupMood k).isSome = true) ∧
    (∀ s : String,
      (∀ k ∈ moodKeys, ratioGe k.toList (pyNormalize s).toList 3 5 = false) →
      get_mood_mapping s = none) ∧
    get_mood_mapping "hapy" = lookupMood "happy" ∧
    (lookupMood "happy").isSome = true ∧
    get_mood_mapping "" = none ∧
    get_mood_mapping "xyzabc" = none := by
  refine ⟨?_, ?_, by decide, by decide, by decide, by decide⟩
  · intro s k hk hclose hcount
    have hsome : (lookupMood k).isSome = true := by
      unfold lookupMood
      cases hfind : MOOD_MAPPINGS.find? (fun p => p.1 == k) with
      | none =>
        have hs := find_isSome_of_mem_fst MOOD_MAPPINGS k hk
        rw [hfind] at hs
        simp at hs
      | some v => rfl
    refine ⟨?_, hsome⟩
    by_cases hmem : moodKeys.contains (pyNormalize s) = true
    · have hmem' : pyNormalize s ∈ moodKeys := by simpa using hmem
      have hself : ratioGe (pyNormalize s).toList (pyNormalize s).toList 3 5
          = true := by
        simpa using List.all_eq_true.mp moodKeys_self_close _ hmem'
      have heq : pyNormalize s = k :=
        eq_of_countP_eq_one hcount hmem' hk hself hclose
      rw [← heq]
      simp [get_mood_mapping, hmem]
      intro hn
      exact absurd hmem' hn
    · have hfilter : moodKeys.filter
          (fun x => ratioGe x.toList (pyNormalize s).toList 3 5) = [k] :=
        filter_eq_singleton_of_countP_eq_one hcount hk hclose
      have hno : pyNormalize s ∉ moodKeys := by
        intro hin
        exact hmem (by simpa using hin)
      simp only [String.toList] at hfilter
      simp [get_mood_mapping, hno, getCloseMatch1, hfilter]
  · intro s hbelow
    by_cases hmem : moodKeys.contains (pyNormalize s) = true
    · exfalso
      have hmem' : pyNormalize s ∈ moodKeys := by simpa using hmem
      have hself : ratioGe (pyNormalize s).toList (pyNormalize s).toList 3 5
          = true := by
        simpa using List.all_eq_true.mp moodKeys_self_close _ hmem'
      rw [hbelow _ hmem'] at hself
      exact Bool.false_ne_true hself
    · have hfilter : moodKeys.filter
          (fun x => ratioGe x.toList (pyNormalize s).toList 3 5) = [] := by
        rw [List.filter_eq_nil_iff]
        intro a ha
        rw [hbelow a ha]
        exact Bool.false_ne_true
      have hno : pyNormalize s ∉ moodKeys := by
        intro hin
        exact hmem (by simpa using hin)
      simp only [String.toList] at hfilter
      simp [get_mood_mapping, hno, getCloseMatch1, hfilter]

/-- C8 witness: the fuzzy-resolution law applied at `"hapy"` (which is
0.6-close to exactly one key, `"happy"`) and the below-cutoff law applied
at `"xyzabc"`. -/
theorem C8_witness :
    get_mood_mapping "hapy" = lookupMood "happy" ∧
    get_mood_mapping "xyzabc" = none := by
  refine ⟨(C8_thm.1 "hapy" "happy" (by decide) (by decide) (by decide)).1, ?_⟩
  exact C8_thm.2.1 "xyzabc" (by decide)

end MoodMatch
